import Mathlib

/-!
Shallow embedding of the XDR (X402 Development Runtime) core: the ledger
(crates/xdr-ledger), the chaos engine (crates/xdr-chaos), the trace recorder
(crates/xdr-trace) and the proxy request pipeline (crates/xdr-proxy).

Monetary amounts (Rust f64) are embedded as rationals; counters (Rust u64)
as naturals.  Nondeterministic inputs of the Rust code are passed in
explicitly: UUID generation is a counter, the ChaCha8 PRNG is an abstract
stream of outcomes, the thread-local RNG used for transaction hashes is the
list of sampled characters, and the upstream HTTP exchange is an oracle.
-/

namespace XDR

/-- Agent record, from crates/xdr-ledger/src/lib.rs (struct AgentState). -/
structure AgentState where
  id : String
  balance_usdc : ℚ
  total_spend : ℚ
  payment_count : Nat
  budget_limit : ℚ
  is_active : Bool
deriving Repr, DecidableEq

/-- AgentState::new: initial funding of 100 mock USDC, budget limit 10 (DEFAULT_BUDGET). -/
def AgentState.new (id : String) : AgentState :=
  { id := id
    balance_usdc := 100
    total_spend := 0
    payment_count := 0
    budget_limit := 10
    is_active := true }

/-- Payment receipt, from crates/xdr-ledger/src/lib.rs (struct PaymentReceipt). -/
structure PaymentReceipt where
  new_balance : ℚ
  tx_hash : String
  chain_id : String
  block_height : Nat
deriving Repr, DecidableEq

/-- Invoice record, from crates/xdr-ledger/src/lib.rs (struct Invoice). -/
structure Invoice where
  id : String
  amount : ℚ
  is_paid : Bool
  agent_id : String
deriving Repr, DecidableEq

/-- Ledger: the two DashMaps (agents keyed by id, invoices keyed by id),
embedded as partial lookup functions. -/
structure Ledger where
  store : String → Option AgentState
  invoices : String → Option Invoice

/-- The empty ledger (Ledger::new). -/
def Ledger.empty : Ledger :=
  { store := fun _ => none, invoices := fun _ => none }

/-- Ledger::register_or_get: returns (state, is_new) and the ledger after the call. -/
def Ledger.register_or_get (l : Ledger) (agent_id : String) : (AgentState × Bool) × Ledger :=
  match l.store agent_id with
  | some existing => ((existing, false), l)
  | none =>
    let a := AgentState.new agent_id
    ((a, true),
     { l with store := fun k => if k = agent_id then some a else l.store k })

/-- Ledger::get_state. -/
def Ledger.get_state (l : Ledger) (agent_id : String) : Option AgentState :=
  l.store agent_id

/-- Ledger::create_invoice.  The fresh UUID is passed in as fresh_id
(Uuid::new_v4 is nondeterministic). -/
def Ledger.create_invoice (l : Ledger) (agent_id : String) (amount : ℚ) (fresh_id : String) :
    Invoice × Ledger :=
  let invoice : Invoice :=
    { id := fresh_id, amount := amount, is_paid := false, agent_id := agent_id }
  (invoice,
   { l with invoices := fun k => if k = fresh_id then some invoice else l.invoices k })

/-- Ledger::set_balance: force-sets the balance, creating the agent if absent. -/
def Ledger.set_balance (l : Ledger) (agent_id : String) (amount : ℚ) : Ledger :=
  let entry := (l.store agent_id).getD (AgentState.new agent_id)
  { l with
    store := fun k =>
      if k = agent_id then some { entry with balance_usdc := amount } else l.store k }

/-- Ledger::pay_invoice, from crates/xdr-ledger/src/lib.rs lines 116-154.
The freshly generated transaction hash is passed in as tx_hash. -/
def Ledger.pay_invoice (l : Ledger) (invoice_id agent_id network tx_hash : String) :
    Except String PaymentReceipt × Ledger :=
  match l.invoices invoice_id with
  | none => (.error "Invoice invalid", l)
  | some invoice =>
    if invoice.is_paid then (.error "Invoice already paid", l)
    else if invoice.agent_id ≠ agent_id then (.error "Invoice belongs to another agent", l)
    else
      match l.store agent_id with
      | none => (.error "Agent not found", l)
      | some agent =>
        if agent.balance_usdc < invoice.amount then
          (.error "Wallet Exhausted: Insufficient funds", l)
        else if agent.total_spend + invoice.amount > agent.budget_limit then
          (.error "Safety Limit: Budget cap exceeded", l)
        else
          let agent' : AgentState :=
            { agent with
              balance_usdc := agent.balance_usdc - invoice.amount
              total_spend := agent.total_spend + invoice.amount
              payment_count := agent.payment_count + 1 }
          let invoice' : Invoice := { invoice with is_paid := true }
          let chain_id : String := if network = "cronos-mainnet" then "25" else "338"
          (.ok { new_balance := agent'.balance_usdc
                 tx_hash := tx_hash
                 chain_id := chain_id
                 block_height := 10000000 + agent'.payment_count },
           { store := fun k => if k = agent_id then some agent' else l.store k
             invoices := fun k => if k = invoice_id then some invoice' else l.invoices k })

/-- Specification-side definition, following the words of the spec (section 4.1):
the six ordered checks of pay_invoice, returning the error of the first failing
check, or none when all checks pass.  To be compared with Ledger.pay_invoice. -/
def specFirstError (l : Ledger) (invoice_id agent_id : String) : Option String :=
  match l.invoices invoice_id with
  | none => some "Invoice invalid"
  | some invoice =>
    if invoice.is_paid then some "Invoice already paid"
    else if invoice.agent_id ≠ agent_id then some "Invoice belongs to another agent"
    else
      match l.store agent_id with
      | none => some "Agent not found"
      | some agent =>
        if agent.balance_usdc < invoice.amount then
          some "Wallet Exhausted: Insufficient funds"
        else if agent.total_spend + invoice.amount > agent.budget_limit then
          some "Safety Limit: Budget cap exceeded"
        else none

/-- Ledger states reachable by any sequence of the four ledger operations,
with arbitrary arguments, starting from the empty ledger. -/
inductive Reachable : Ledger → Prop where
  | init : Reachable Ledger.empty
  | register (l : Ledger) (aid : String) :
      Reachable l → Reachable (l.register_or_get aid).2
  | setBal (l : Ledger) (aid : String) (amt : ℚ) :
      Reachable l → Reachable (l.set_balance aid amt)
  | invoice (l : Ledger) (aid : String) (amt : ℚ) (fresh : String) :
      Reachable l → Reachable (l.create_invoice aid amt fresh).2
  | pay (l : Ledger) (iid aid net txh : String) :
      Reachable l → Reachable (l.pay_invoice iid aid net txh).2

/-- Ledger states reachable when the admin operations set_balance and
create_invoice are only ever invoked with non-negative amounts. -/
inductive ReachableNN : Ledger → Prop where
  | init : ReachableNN Ledger.empty
  | register (l : Ledger) (aid : String) :
      ReachableNN l → ReachableNN (l.register_or_get aid).2
  | setBal (l : Ledger) (aid : String) (amt : ℚ) (hamt : 0 ≤ amt) :
      ReachableNN l → ReachableNN (l.set_balance aid amt)
  | invoice (l : Ledger) (aid : String) (amt : ℚ) (hamt : 0 ≤ amt) (fresh : String) :
      ReachableNN l → ReachableNN (l.create_invoice aid amt fresh).2
  | pay (l : Ledger) (iid aid net txh : String) :
      ReachableNN l → ReachableNN (l.pay_invoice iid aid net txh).2

/-- The per-agent safety invariant claimed by the spec, together with the
auxiliary fact (needed for induction) that every stored invoice has a
non-negative amount. -/
def LedgerInv (l : Ledger) : Prop :=
  (∀ k a, l.store k = some a →
      0 ≤ a.balance_usdc ∧ 0 ≤ a.total_spend ∧ a.total_spend ≤ a.budget_limit) ∧
  (∀ k i, l.invoices k = some i → 0 ≤ i.amount)

/-- The agent record that set_balance with amount -1 produces on the empty ledger. -/
def negAgent : AgentState := { AgentState.new "a1" with balance_usdc := -1 }

/-- Concrete ledger fixture: one funded agent. -/
def wAgent : AgentState := AgentState.new "a1"

/-- Concrete ledger fixture: one unpaid invoice of 0.01 for that agent. -/
def wInvoice : Invoice := { id := "i1", amount := mkRat 1 100, is_paid := false, agent_id := "a1" }

/-- Concrete ledger fixture holding wAgent and wInvoice. -/
def wLedger : Ledger :=
  { store := fun k => if k = "a1" then some wAgent else none
    invoices := fun k => if k = "i1" then some wInvoice else none }

/-- Chaos configuration, from crates/xdr-chaos/src/lib.rs (struct ChaosConfig). -/
structure ChaosConfig where
  enabled : Bool
  seed : Nat
  global_failure_rate : ℚ
  payment_failure_rate : ℚ
  rug_rate : ℚ
  min_latency_ms : Nat
  max_latency_ms : Nat
deriving Repr, DecidableEq

/-- ChaosConfig::default: everything off. -/
def ChaosConfig.off : ChaosConfig :=
  { enabled := false, seed := 0, global_failure_rate := 0, payment_failure_rate := 0,
    rug_rate := 0, min_latency_ms := 0, max_latency_ms := 0 }

/-- Abstract model of the seeded ChaCha8 PRNG: a stream of Bernoulli outcomes
and a stream of naturals, consumed at increasing positions. -/
structure RandomSource where
  bools : Nat → Bool
  nats : Nat → Nat

/-- Chaos engine state: the installed config and the PRNG position
(struct ChaosState in crates/xdr-chaos/src/lib.rs). -/
structure ChaosState where
  config : ChaosConfig
  pos : Nat

/-- Rng::gen_bool(rate): consumes one draw; returns false for rate 0 and true
for rate 1 deterministically, otherwise the stream outcome. -/
def genBool (rs : RandomSource) (pos : Nat) (rate : ℚ) : Bool × Nat :=
  (if rate ≤ 0 then false else if 1 ≤ rate then true else rs.bools pos, pos + 1)

/-- Rng::gen_range(lo..=hi): panics (models rand's "cannot sample empty range")
when lo > hi, otherwise consumes one draw and yields a value in the range. -/
def genRangeInclusive (rs : RandomSource) (pos : Nat) (lo hi : Nat) :
    Except String (Nat × Nat) :=
  if lo > hi then .error "cannot sample empty range"
  else .ok (lo + rs.nats pos % (hi - lo + 1), pos + 1)

/-- ChaosEngine::new: default config, seeded from 0. -/
def ChaosState.new : ChaosState := { config := ChaosConfig.off, pos := 0 }

/-- ChaosEngine::set_config: reseed the PRNG (position restarts on the fresh
stream), then install the new config, with no validation of its fields. -/
def ChaosState.set_config (_cs : ChaosState) (new_config : ChaosConfig) : ChaosState :=
  { config := new_config, pos := 0 }

/-- ChaosEngine::roll_network_failure: when enabled, one Bernoulli draw with
global_failure_rate; on a hit one more uniform draw picks from [503, 429, 504]. -/
def ChaosState.roll_network_failure (cs : ChaosState) (rs : RandomSource) :
    Option Nat × ChaosState :=
  if cs.config.enabled = false then (none, cs)
  else
    let b := genBool rs cs.pos cs.config.global_failure_rate
    if b.1 then
      let errors : List Nat := [503, 429, 504]
      let idx := rs.nats b.2 % errors.length
      (some (errors.getD idx 0), { cs with pos := b.2 + 1 })
    else (none, { cs with pos := b.2 })

/-- ChaosEngine::roll_payment_failure: when enabled, one Bernoulli draw with
payment_failure_rate. -/
def ChaosState.roll_payment_failure (cs : ChaosState) (rs : RandomSource) :
    Bool × ChaosState :=
  if cs.config.enabled = false then (false, cs)
  else
    let b := genBool rs cs.pos cs.config.payment_failure_rate
    (b.1, { cs with pos := b.2 })

/-- ChaosEngine::roll_rug_pull: when enabled, one Bernoulli draw with rug_rate. -/
def ChaosState.roll_rug_pull (cs : ChaosState) (rs : RandomSource) :
    Bool × ChaosState :=
  if cs.config.enabled = false then (false, cs)
  else
    let b := genBool rs cs.pos cs.config.rug_rate
    (b.1, { cs with pos := b.2 })

/-- ChaosEngine::inject_latency: no draw when disabled or max_latency_ms is 0;
otherwise a uniform draw in min_latency_ms..=max_latency_ms, which panics when
the range is empty.  Returns (drew, delay, new state). -/
def ChaosState.inject_latency (cs : ChaosState) (rs : RandomSource) :
    Except String (Bool × Nat × ChaosState) :=
  if cs.config.enabled = false ∨ cs.config.max_latency_ms = 0 then .ok (false, 0, cs)
  else
    match genRangeInclusive rs cs.pos cs.config.min_latency_ms cs.config.max_latency_ms with
    | .error e => .error e
    | .ok (d, p) => .ok (true, d, { cs with pos := p })

/-- A concrete random source: both streams constantly zero / false. -/
def rs0 : RandomSource := { bools := fun _ => false, nats := fun _ => 0 }

/-- A chaos config with an empty latency range (0 < max < min). -/
def badLatencyCfg : ChaosConfig :=
  { enabled := true, seed := 7, global_failure_rate := 0, payment_failure_rate := 0,
    rug_rate := 0, min_latency_ms := 2, max_latency_ms := 1 }

/-- A chaos config with a well-formed nonzero latency range. -/
def goodLatencyCfg : ChaosConfig :=
  { enabled := true, seed := 7, global_failure_rate := 0, payment_failure_rate := 0,
    rug_rate := 0, min_latency_ms := 1, max_latency_ms := 3 }

/-- Executable model of Rust str::starts_with on character lists. -/
def charsStartWith : List Char → List Char → Bool
  | _, [] => true
  | [], _ :: _ => false
  | c :: cs, p :: ps => c == p && charsStartWith cs ps

/-- Executable model of Rust str::contains (substring search) on character lists. -/
def charsContain (s pat : List Char) : Bool :=
  match s with
  | [] => pat.isEmpty
  | _ :: rest => charsStartWith s pat || charsContain rest pat

/-- Executable model of Rust str::replace (replace every non-overlapping
occurrence, left to right) on character lists, by fuel so that it is
structurally recursive; fuel at least the length of the scanned list. -/
def charsReplaceFuel : Nat → List Char → List Char → List Char → List Char
  | 0, s, _, _ => s
  | _ + 1, [], _, _ => []
  | fuel + 1, c :: rest, pat, rep =>
    if pat.length ≠ 0 && charsStartWith (c :: rest) pat then
      rep ++ charsReplaceFuel fuel ((c :: rest).drop pat.length) pat rep
    else c :: charsReplaceFuel fuel rest pat rep

/-- Rust str::starts_with, on strings. -/
def strStartsWith (s pat : String) : Bool := charsStartWith s.data pat.data

/-- Rust str::contains, on strings. -/
def strContains (s pat : String) : Bool := charsContain s.data pat.data

/-- Rust str::replace, on strings. -/
def strReplace (s pat rep : String) : String :=
  String.mk (charsReplaceFuel s.data.length s.data pat.data rep.data)

/-- Trace event categories, from crates/xdr-trace/src/lib.rs (enum EventCategory). -/
inductive EventCategory where
  | info
  | chaos
  | payment
  | upstream
  | error
deriving Repr, DecidableEq

/-- Per-request trace, from crates/xdr-trace/src/lib.rs (struct Trace).
Wall-clock fields (start_time, end_time, duration_ms, event timestamps) are
real time and are not modelled; status_code is None until finish. -/
structure Trace where
  id : String
  agent_id : String
  method : String
  url : String
  status_code : Option Nat
  events : List (EventCategory × String)
deriving Repr, DecidableEq

/-- Trace::new. -/
def Trace.new (fresh_id agent_id method url : String) : Trace :=
  { id := fresh_id, agent_id := agent_id, method := method, url := url,
    status_code := none, events := [] }

/-- Trace::log: appends one event. -/
def Trace.log (t : Trace) (category : EventCategory) (message : String) : Trace :=
  { t with events := t.events ++ [(category, message)] }

/-- Trace::finish: records the final status. -/
def Trace.finish (t : Trace) (status : Nat) : Trace :=
  { t with status_code := some status }

/-- Commit a finished trace with a plain push_back (the form used by every
early-exit branch of proxy_handler). -/
def commitPush (traces : List Trace) (t : Trace) : List Trace :=
  traces ++ [t]

/-- Commit a finished trace with the ring-buffer logic used by the
upstream-success branch of proxy_handler (lines 316-320): pop the oldest
entry first when the buffer holds 1000 or more. -/
def commitRing (traces : List Trace) (t : Trace) : List Trace :=
  (if traces.length ≥ 1000 then traces.drop 1 else traces) ++ [t]

/-- Inbound HTTP request.  Headers are stored with lower-case names (axum's
HeaderMap is case-insensitive); absoluteForm records whether the request URI
carries both a scheme and a host (absolute-form request). -/
structure HttpRequest where
  method : String
  path : String
  query : Option String
  absoluteForm : Bool
  headers : List (String × String)
deriving Repr, DecidableEq

/-- HeaderMap::get, by lower-case header name. -/
def HttpRequest.getHeader (r : HttpRequest) (name : String) : Option String :=
  (r.headers.find? (fun p => p.1 == name)).map Prod.snd

/-- HeaderMap::remove. -/
def HttpRequest.removeHeader (r : HttpRequest) (name : String) : HttpRequest :=
  { r with headers := r.headers.filter (fun p => p.1 != name) }

/-- The whole application state shared by the handlers (struct AppState),
plus the counter resolving Uuid::new_v4 nondeterminism. -/
structure AppState where
  ledger : Ledger
  chaos : ChaosState
  traces : List Trace
  network : String
  uuidCtr : Nat

/-- Fresh UUID string number n of the run. -/
def freshUuid (n : Nat) : String := "uuid-" ++ toString n

/-- resolve_upstream_url, from crates/xdr-proxy/src/lib.rs lines 332-352:
absolute-form URIs pass through; otherwise X-Upstream-Host is required and an
https URL is built from it (URL parse failures of well-formed inputs are not
modelled). -/
def resolve_upstream_url (req : HttpRequest) : Except String String :=
  if req.absoluteForm then .ok req.path
  else
    match req.getHeader "x-upstream-host" with
    | none => .error "Missing X-Upstream-Host header or Absolute URL"
    | some host =>
      .ok ("https://" ++ host ++ req.path ++
        (match req.query with | some q => "?" ++ q | none => ""))

/-- The distinct terminal branches of proxy_handler, in source order. -/
inductive RespKind where
  | earlyMissingAgent
  | earlyNetworkFailure
  | chaosNetworkError
  | missingAgent
  | chaosPaymentFailed
  | rugPull
  | paymentRejected
  | challenge
  | resolutionError
  | upstreamError
  | upstreamOk
deriving Repr, DecidableEq

/-- The PRNG-consuming chaos operations, for the per-request draw log. -/
inductive ChaosOp where
  | latency
  | networkFailure
  | paymentFailure
  | rugPullRoll
deriving Repr, DecidableEq

/-- Result of one run of proxy_handler: response status, which terminal branch
produced it, the state after the run, the log of PRNG-consuming chaos
operations in order, whether the upstream was contacted, and the invoice id
passed to pay_invoice when settlement was attempted. -/
structure HandlerOut where
  status : Nat
  kind : RespKind
  state : AppState
  chaosLog : List ChaosOp
  upstreamCalled : Bool
  paidInvoiceId : Option String

/-- The payment-gate condition of proxy_handler (line 194): path contains
"paid" or the X-Simulate-Payment header is present. -/
def shouldGate (req : HttpRequest) : Bool :=
  strContains req.path "paid" || (req.getHeader "x-simulate-payment").isSome

/-- Forwarding phase of proxy_handler (lines 273-328): upstream URL
resolution, the upstream exchange (an oracle: none is a transport error, some
status is a response), and trace commit - with ring-buffer eviction only on
the success path. -/
def forwardPhase (st : AppState) (req : HttpRequest) (trace : Trace)
    (lg : List ChaosOp) (paid : Option String) (upstream : Option Nat) : HandlerOut :=
  match resolve_upstream_url req with
  | .error e =>
    let t := (trace.log .error ("Resolution failed: " ++ e)).finish 400
    { status := 400, kind := .resolutionError,
      state := { st with traces := commitPush st.traces t },
      chaosLog := lg, upstreamCalled := false, paidInvoiceId := paid }
  | .ok u =>
    let trace1 := trace.log .upstream ("Forwarding to " ++ u)
    match upstream with
    | none =>
      let t := (trace1.log .upstream "Upstream Failed").finish 502
      { status := 502, kind := .upstreamError,
        state := { st with traces := commitPush st.traces t },
        chaosLog := lg, upstreamCalled := true, paidInvoiceId := paid }
    | some code =>
      let t := (trace1.log .upstream ("Upstream responded: " ++ toString code)).finish code
      { status := code, kind := .upstreamOk,
        state := { st with traces := commitRing st.traces t },
        chaosLog := lg, upstreamCalled := true, paidInvoiceId := paid }

/-- proxy_handler, from crates/xdr-proxy/src/lib.rs lines 120-328, including
its duplicated prologue: the identity check and agent registration of lines
128-137 and the latency injection and network-failure roll of lines 139-157
all run before the trace is created at line 159; the trace-creating pipeline
then repeats latency, network-failure, identity and registration.  The
Except layer propagates a chaos panic (empty latency range). -/
def proxy_handler (st0 : AppState) (rs : RandomSource) (tx_hash : String)
    (upstream : Option Nat) (req0 : HttpRequest) : Except String HandlerOut :=
  let en := st0.chaos.config.enabled
  match req0.getHeader "x-agent-id" with
  | none =>
    .ok { status := 400, kind := .earlyMissingAgent, state := st0,
          chaosLog := [], upstreamCalled := false, paidInvoiceId := none }
  | some agent_id0 =>
    let st1 := { st0 with ledger := (st0.ledger.register_or_get agent_id0).2 }
    match st1.chaos.inject_latency rs with
    | .error e => .error e
    | .ok (drew1, _, cs1) =>
      let log1 : List ChaosOp := if drew1 then [.latency] else []
      let rolled1 := cs1.roll_network_failure rs
      let log2 := log1 ++ (if en then [ChaosOp.networkFailure] else [])
      match rolled1.1 with
      | some code =>
        .ok { status := code, kind := .earlyNetworkFailure,
              state := { st1 with chaos := rolled1.2 },
              chaosLog := log2, upstreamCalled := false, paidInvoiceId := none }
      | none =>
        let trace0 := Trace.new (freshUuid st1.uuidCtr) "unknown" req0.method req0.path
        let st2 := { st1 with chaos := rolled1.2, uuidCtr := st1.uuidCtr + 1 }
        match st2.chaos.inject_latency rs with
        | .error e => .error e
        | .ok (drew2, _, cs3) =>
          let log3 := log2 ++ (if drew2 then [ChaosOp.latency] else [])
          let rolled2 := cs3.roll_network_failure rs
          let log4 := log3 ++ (if en then [ChaosOp.networkFailure] else [])
          match rolled2.1 with
          | some code =>
            let t := (trace0.log .chaos ("Injected Network Failure: " ++ toString code)).finish code
            .ok { status := code, kind := .chaosNetworkError,
                  state := { st2 with chaos := rolled2.2, traces := commitPush st2.traces t },
                  chaosLog := log4, upstreamCalled := false, paidInvoiceId := none }
          | none =>
            let st3 := { st2 with chaos := rolled2.2 }
            match req0.getHeader "x-agent-id" with
            | none =>
              let t := (trace0.log .error "Missing X-Agent-ID header").finish 400
              .ok { status := 400, kind := .missingAgent,
                    state := { st3 with traces := commitPush st3.traces t },
                    chaosLog := log4, upstreamCalled := false, paidInvoiceId := none }
            | some agent_id =>
              let trace1 := ({ trace0 with agent_id := agent_id }).log .info
                ("Agent identified: " ++ agent_id)
              let st4 := { st3 with ledger := (st3.ledger.register_or_get agent_id).2 }
              if shouldGate req0 then
                let settleToken : Option String :=
                  match req0.getHeader "authorization" with
                  | some token => if strStartsWith token "L402" then some token else none
                  | none => none
                match settleToken with
                | some token =>
                  let rolledPf := st4.chaos.roll_payment_failure rs
                  let log5 := log4 ++ (if en then [ChaosOp.paymentFailure] else [])
                  if rolledPf.1 then
                    let t := (trace1.log .chaos "Payment transaction failed on-chain").finish 402
                    let st5 := { st4 with chaos := rolledPf.2, traces := commitPush st4.traces t }
                    .ok { status := 402, kind := .chaosPaymentFailed, state := st5,
                          chaosLog := log5, upstreamCalled := false, paidInvoiceId := none }
                  else
                    let invoice_id := strReplace token "L402 " ""
                    let payres := st4.ledger.pay_invoice invoice_id agent_id st4.network tx_hash
                    match payres.1 with
                    | .error e =>
                      let t := (trace1.log .payment ("Payment rejected: " ++ e)).finish 402
                      let st5 := { st4 with chaos := rolledPf.2, ledger := payres.2, traces := commitPush st4.traces t }
                      .ok { status := 402, kind := .paymentRejected, state := st5,
                            chaosLog := log5, upstreamCalled := false,
                            paidInvoiceId := some invoice_id }
                    | .ok receipt =>
                      let trace2 := ((trace1.log .payment
                        ("Payment Confirmed on Cronos (Testnet). Tx: " ++ receipt.tx_hash)).log
                          .info ("Chain: " ++ receipt.chain_id)).log .payment "Payment accepted"
                      let rolledRug := rolledPf.2.roll_rug_pull rs
                      let log6 := log5 ++ (if en then [ChaosOp.rugPullRoll] else [])
                      if rolledRug.1 then
                        let t := (trace2.log .chaos
                          "RUG PULL: Payment taken, request dropped").finish 500
                        let st5 := { st4 with chaos := rolledRug.2, ledger := payres.2, traces := commitPush st4.traces t }
                        .ok { status := 500, kind := .rugPull, state := st5,
                              chaosLog := log6, upstreamCalled := false,
                              paidInvoiceId := some invoice_id }
                      else
                        let req1 := req0.removeHeader "authorization"
                        .ok (forwardPhase
                          { st4 with chaos := rolledRug.2, ledger := payres.2 }
                          req1 trace2 log6 (some invoice_id) upstream)
                | none =>
                  let created := st4.ledger.create_invoice agent_id (mkRat 1 100)
                    (freshUuid st4.uuidCtr)
                  let t := (trace1.log .payment
                    ("Generated Invoice: " ++ created.1.id)).finish 402
                  let st5 := { st4 with ledger := created.2, uuidCtr := st4.uuidCtr + 1, traces := commitPush st4.traces t }
                  .ok { status := 402, kind := .challenge, state := st5,
                        chaosLog := log4, upstreamCalled := false, paidInvoiceId := none }
              else
                .ok (forwardPhase st4 req0 trace1 log4 none upstream)

/-- Initial application state: empty ledger, chaos off, empty trace buffer,
testnet network. -/
def st0 : AppState :=
  { ledger := Ledger.empty, chaos := ChaosState.new, traces := [],
    network := "cronos-testnet", uuidCtr := 0 }

/-- A fixed transaction-hash string for handler runs. -/
def txh0 : String := "0xmockhash"

/-- A request with no X-Agent-ID header. -/
def reqNoAgent : HttpRequest :=
  { method := "GET", path := "/hello", query := none, absoluteForm := true, headers := [] }

/-- A plain identified request outside the payment gate (absolute-form URI). -/
def reqPlain : HttpRequest :=
  { method := "GET", path := "/hello", query := none, absoluteForm := true,
    headers := [("x-agent-id", "a1")] }

/-- An identified request on a gated path with no Authorization header. -/
def challengeReq : HttpRequest :=
  { method := "GET", path := "/paid/data", query := none, absoluteForm := true,
    headers := [("x-agent-id", "a1")] }

/-- An identified gated request whose Authorization value starts with "L402"
but not with "L402 " (no space). -/
def reqBadAuth : HttpRequest :=
  { method := "GET", path := "/paid/data", query := none, absoluteForm := true,
    headers := [("x-agent-id", "a1"), ("authorization", "L402x")] }

/-- Chaos config whose network-failure rate is 1 (first roll always hits). -/
def cfgHit : ChaosConfig :=
  { enabled := true, seed := 42, global_failure_rate := 1, payment_failure_rate := 0,
    rug_rate := 0, min_latency_ms := 0, max_latency_ms := 0 }

/-- Application state with cfgHit installed. -/
def stHit : AppState := { st0 with chaos := { config := cfgHit, pos := 0 } }

/-- Chaos config with mid rates (all Bernoulli draws read the stream, which in
rs0 answers false) and a one-millisecond latency range, so every chaos call
consumes the PRNG and no failure fires. -/
def cfgMiss : ChaosConfig :=
  { enabled := true, seed := 42, global_failure_rate := mkRat 1 2,
    payment_failure_rate := mkRat 1 2, rug_rate := mkRat 1 2,
    min_latency_ms := 1, max_latency_ms := 1 }

/-- Application state with cfgMiss installed. -/
def stMiss : AppState := { st0 with chaos := { config := cfgMiss, pos := 0 } }

/-- One handler run of the challenge request (chaos off, upstream 200),
keeping the resulting state. -/
def stepChallenge (st : AppState) : AppState :=
  match proxy_handler st rs0 txh0 (some 200) challengeReq with
  | .ok r => r.state
  | .error _ => st

/-- n handler runs of the challenge request. -/
def iterChallenge : Nat → AppState → AppState
  | 0, st => st
  | n + 1, st => iterChallenge n (stepChallenge st)

/-- An identified gated request with a well-formed L402 token. -/
def reqGoodAuth : HttpRequest :=
  { method := "GET", path := "/paid/data", query := none, absoluteForm := true,
    headers := [("x-agent-id", "a1"), ("authorization", "L402 i1")] }

/-- The 62 characters rand's Alphanumeric distribution samples from. -/
def alphanumericChars : List Char :=
  "ABCDEFGHIJKLMNOPQRSTUVWXYZabcdefghijklmnopqrstuvwxyz0123456789".data

/-- A lowercase hexadecimal digit (0-9, a-f). -/
def isLowerHexDigit (c : Char) : Bool :=
  (decide ('0' ≤ c) && decide (c ≤ '9')) || (decide ('a' ≤ c) && decide (c ≤ 'f'))

/-- A lowercase alphanumeric character (0-9, a-z). -/
def isLowerAlphanumeric (c : Char) : Bool :=
  (decide ('0' ≤ c) && decide (c ≤ '9')) || (decide ('a' ≤ c) && decide (c ≤ 'z'))

/-- Ledger::generate_cronos_hash, from crates/xdr-ledger/src/lib.rs lines
93-101: 64 characters sampled from Alphanumeric by the thread-local RNG (the
sample is the input here), collected and lowercased, behind an "0x" prefixed
format; String::to_lowercase on ASCII is per-character Char.toLower. -/
def generate_cronos_hash (sample : List Char) : String :=
  String.mk ('0' :: 'x' :: sample.map Char.toLower)

end XDR

namespace XDR

/-- C1: pay_invoice performs its checks in the fixed order (invoice exists, not
already paid, owned by the agent, agent exists, sufficient balance, budget cap);
the first failing check determines the returned error, and whenever any check
fails the ledger state is exactly the state before the call. -/
theorem C1_pay_invoice_check_order (l : Ledger) (iid aid net txh : String) :
    (∀ e, (l.pay_invoice iid aid net txh).1 = .error e ↔ specFirstError l iid aid = some e) ∧
    ((l.pay_invoice iid aid net txh).1.isOk = true ↔ specFirstError l iid aid = none) ∧
    (∀ e, (l.pay_invoice iid aid net txh).1 = .error e → (l.pay_invoice iid aid net txh).2 = l) := by
  unfold Ledger.pay_invoice specFirstError
  cases hinv : l.invoices iid with
  | none => simp [Except.isOk, Except.toBool]
  | some invoice =>
    by_cases hp : invoice.is_paid
    · simp [hp, Except.isOk, Except.toBool]
    · by_cases hown : invoice.agent_id = aid
      · cases hag : l.store aid with
        | none => simp [hp, hown, Except.isOk, Except.toBool]
        | some agent =>
          by_cases hbal : agent.balance_usdc < invoice.amount
          · simp [hp, hown, hbal, Except.isOk, Except.toBool]
          · by_cases hbud : agent.total_spend + invoice.amount > agent.budget_limit
            · simp [hp, hown, hbal, hbud, Except.isOk, Except.toBool]
            · simp [hp, hown, hbal, hbud, Except.isOk, Except.toBool]
      · simp [hp, hown, Except.isOk, Except.toBool]

/-- C1 witness: on the empty ledger the first check fails, the error is
"Invoice invalid", and the ledger is unchanged. -/
theorem C1_witness :
    specFirstError Ledger.empty "i1" "a1" = some "Invoice invalid" ∧
    (Ledger.empty.pay_invoice "i1" "a1" "cronos-testnet" "0xabc").2 = Ledger.empty :=
  ⟨((C1_pay_invoice_check_order Ledger.empty "i1" "a1" "cronos-testnet" "0xabc").1
      "Invoice invalid").mp rfl,
   (C1_pay_invoice_check_order Ledger.empty "i1" "a1" "cronos-testnet" "0xabc").2.2
      "Invoice invalid" rfl⟩

/-- C2: when all six checks pass, pay_invoice decrements the balance by the
invoice amount, increments total_spend by that amount and payment_count by one,
marks the invoice paid, and returns a receipt whose new_balance is the updated
balance, whose chain_id is "25" exactly for network "cronos-mainnet" and "338"
otherwise, and whose block_height is 10_000_000 plus the incremented
payment_count. -/
theorem C2_pay_invoice_success (l : Ledger) (iid aid net txh : String)
    (inv : Invoice) (ag : AgentState)
    (hinv : l.invoices iid = some inv) (hag : l.store aid = some ag)
    (hpaid : inv.is_paid = false) (hown : inv.agent_id = aid)
    (hbal : ¬ ag.balance_usdc < inv.amount)
    (hbud : ¬ ag.total_spend + inv.amount > ag.budget_limit) :
    ∃ r, (l.pay_invoice iid aid net txh).1 = .ok r ∧
      (l.pay_invoice iid aid net txh).2.store aid =
        some { ag with
               balance_usdc := ag.balance_usdc - inv.amount
               total_spend := ag.total_spend + inv.amount
               payment_count := ag.payment_count + 1 } ∧
      (l.pay_invoice iid aid net txh).2.invoices iid = some { inv with is_paid := true } ∧
      r.new_balance = ag.balance_usdc - inv.amount ∧
      r.chain_id = (if net = "cronos-mainnet" then "25" else "338") ∧
      r.block_height = 10000000 + (ag.payment_count + 1) := by
  unfold Ledger.pay_invoice
  simp only [hinv, hag, hpaid, hown]
  rw [if_neg (by simp), if_neg (by simp), if_neg hbal, if_neg hbud]
  exact ⟨_, rfl, by simp, by simp, rfl, rfl, rfl⟩

/-- C2 witness: paying the 0.01 invoice from balance 100 with zero prior spend
succeeds and produces the claimed post-state and receipt. -/
theorem C2_witness :
    ∃ r, (wLedger.pay_invoice "i1" "a1" "cronos-testnet" "0xabc").1 = .ok r ∧
      (wLedger.pay_invoice "i1" "a1" "cronos-testnet" "0xabc").2.store "a1" =
        some { wAgent with
               balance_usdc := wAgent.balance_usdc - wInvoice.amount
               total_spend := wAgent.total_spend + wInvoice.amount
               payment_count := wAgent.payment_count + 1 } ∧
      (wLedger.pay_invoice "i1" "a1" "cronos-testnet" "0xabc").2.invoices "i1" =
        some { wInvoice with is_paid := true } ∧
      r.new_balance = wAgent.balance_usdc - wInvoice.amount ∧
      r.chain_id = (if "cronos-testnet" = "cronos-mainnet" then "25" else "338") ∧
      r.block_height = 10000000 + (wAgent.payment_count + 1) :=
  C2_pay_invoice_success wLedger "i1" "a1" "cronos-testnet" "0xabc" wInvoice wAgent
    rfl rfl rfl rfl (by decide)
    (by norm_num [wAgent, wInvoice, AgentState.new, Rat.mkRat_eq_div])

/-- The empty ledger satisfies the safety invariant. -/
theorem LedgerInv.empty : LedgerInv Ledger.empty :=
  ⟨fun _ a ha => by simp [Ledger.empty] at ha,
   fun _ i hi => by simp [Ledger.empty] at hi⟩

/-- register_or_get preserves the safety invariant. -/
theorem LedgerInv.register (l : Ledger) (aid : String) (h : LedgerInv l) :
    LedgerInv (l.register_or_get aid).2 := by
  obtain ⟨hs, hi⟩ := h
  unfold Ledger.register_or_get
  cases hag : l.store aid with
  | some existing => exact ⟨hs, hi⟩
  | none =>
    refine ⟨fun k a ha => ?_, hi⟩
    dsimp only at ha
    split at ha
    · cases ha
      refine ⟨by norm_num [AgentState.new], by norm_num [AgentState.new],
        by norm_num [AgentState.new]⟩
    · exact hs k a ha

/-- set_balance with a non-negative amount preserves the safety invariant. -/
theorem LedgerInv.setBal (l : Ledger) (aid : String) (amt : ℚ) (hamt : 0 ≤ amt)
    (h : LedgerInv l) : LedgerInv (l.set_balance aid amt) := by
  obtain ⟨hs, hi⟩ := h
  unfold Ledger.set_balance
  refine ⟨fun k a ha => ?_, hi⟩
  dsimp only at ha
  split at ha
  · cases ha
    cases hag : l.store aid with
    | some existing =>
      obtain ⟨_, h2, h3⟩ := hs aid existing hag
      exact ⟨hamt, h2, h3⟩
    | none =>
      exact ⟨hamt, by norm_num [AgentState.new], by norm_num [AgentState.new]⟩
  · exact hs k a ha

/-- create_invoice with a non-negative amount preserves the safety invariant. -/
theorem LedgerInv.invoice (l : Ledger) (aid : String) (amt : ℚ) (hamt : 0 ≤ amt)
    (fresh : String) (h : LedgerInv l) : LedgerInv (l.create_invoice aid amt fresh).2 := by
  obtain ⟨hs, hi⟩ := h
  unfold Ledger.create_invoice
  refine ⟨hs, fun k i hik => ?_⟩
  dsimp only at hik
  split at hik
  · cases hik; exact hamt
  · exact hi k i hik

/-- pay_invoice preserves the safety invariant. -/
theorem LedgerInv.pay (l : Ledger) (iid aid net txh : String) (h : LedgerInv l) :
    LedgerInv (l.pay_invoice iid aid net txh).2 := by
  obtain ⟨hs, hi⟩ := h
  unfold Ledger.pay_invoice
  cases hinv : l.invoices iid with
  | none => exact ⟨hs, hi⟩
  | some invoice =>
    dsimp only
    by_cases hp : invoice.is_paid
    · rw [if_pos hp]; exact ⟨hs, hi⟩
    · rw [if_neg hp]
      by_cases hown : invoice.agent_id ≠ aid
      · rw [if_pos hown]; exact ⟨hs, hi⟩
      · rw [if_neg hown]
        cases hag : l.store aid with
        | none => exact ⟨hs, hi⟩
        | some agent =>
          dsimp only
          by_cases hbal : agent.balance_usdc < invoice.amount
          · rw [if_pos hbal]; exact ⟨hs, hi⟩
          · rw [if_neg hbal]
            by_cases hbud : agent.total_spend + invoice.amount > agent.budget_limit
            · rw [if_pos hbud]; exact ⟨hs, hi⟩
            · rw [if_neg hbud]
              obtain ⟨b0, ts0, tb0⟩ := hs aid agent hag
              have amt0 : 0 ≤ invoice.amount := hi iid invoice hinv
              refine ⟨fun k a ha => ?_, fun k i hik => ?_⟩
              · dsimp only at ha
                split at ha
                · cases ha
                  exact ⟨sub_nonneg.2 (not_lt.1 hbal), add_nonneg ts0 amt0,
                    not_lt.1 hbud⟩
                · exact hs k a ha
              · dsimp only at hik
                split at hik
                · cases hik; exact amt0
                · exact hi k i hik

/-- Every ledger state reachable with non-negative admin amounts satisfies
the safety invariant. -/
theorem ledgerInv_reachableNN (l : Ledger) (h : ReachableNN l) : LedgerInv l := by
  induction h with
  | init => exact LedgerInv.empty
  | register l aid _ ih => exact LedgerInv.register l aid ih
  | setBal l aid amt hamt _ ih => exact LedgerInv.setBal l aid amt hamt ih
  | invoice l aid amt hamt fresh _ ih => exact LedgerInv.invoice l aid amt hamt fresh ih
  | pay l iid aid net txh _ ih => exact LedgerInv.pay l iid aid net txh ih

/-- The ledger reached by calling set_balance with amount -1 on the empty ledger. -/
def negLedger : Ledger := Ledger.empty.set_balance "a1" (-1)

/-- C5 counterexample: set_balance is a ledger operation and accepts a negative
amount, so a state with a negative balance is reachable, refuting the claimed
invariant as stated. -/
theorem C5_counterexample :
    Reachable negLedger ∧ negLedger.store "a1" = some negAgent ∧
    negAgent.balance_usdc < 0 :=
  ⟨Reachable.setBal Ledger.empty "a1" (-1) Reachable.init, rfl, by norm_num [negAgent]⟩

/-- C5 amended: in every state reachable by ledger operations in which
set_balance and create_invoice are only invoked with non-negative amounts,
every agent satisfies 0 <= balance, 0 <= total_spend <= budget_limit and
payment_count >= 0. -/
theorem C5_amended_invariant (l : Ledger) (h : ReachableNN l) (k : String)
    (a : AgentState) (ha : l.store k = some a) :
    0 ≤ a.balance_usdc ∧ 0 ≤ a.total_spend ∧ a.total_spend ≤ a.budget_limit ∧
    0 ≤ a.payment_count := by
  obtain ⟨h1, h2, h3⟩ := (ledgerInv_reachableNN l h).1 k a ha
  exact ⟨h1, h2, h3, Nat.zero_le _⟩

/-- C5 witness: the invariant holds concretely for the agent created by
register_or_get on the empty ledger. -/
theorem C5_witness :
    0 ≤ (AgentState.new "a1").balance_usdc ∧ 0 ≤ (AgentState.new "a1").total_spend ∧
    (AgentState.new "a1").total_spend ≤ (AgentState.new "a1").budget_limit ∧
    0 ≤ (AgentState.new "a1").payment_count :=
  C5_amended_invariant (Ledger.empty.register_or_get "a1").2
    (ReachableNN.register Ledger.empty "a1" ReachableNN.init) "a1" (AgentState.new "a1") rfl

/-- C10: set_config installs any ChaosConfig unvalidated; inject_latency never
panics when enabled, max_latency_ms > 0 and min_latency_ms <= max_latency_ms
(the uniform draw succeeds), while for a config with enabled = true and
0 < max_latency_ms < min_latency_ms it panics on the empty range. -/
theorem C10_latency_range_safety :
    (∀ (cs : ChaosState) (cfg : ChaosConfig), (cs.set_config cfg).config = cfg) ∧
    (∀ (cfg : ChaosConfig) (p : Nat) (rs : RandomSource),
        cfg.enabled = true → 0 < cfg.max_latency_ms →
        cfg.min_latency_ms ≤ cfg.max_latency_ms →
        ∃ d cs', ChaosState.inject_latency { config := cfg, pos := p } rs =
          .ok (true, d, cs')) ∧
    (0 < badLatencyCfg.max_latency_ms ∧
      badLatencyCfg.max_latency_ms < badLatencyCfg.min_latency_ms ∧
      ChaosState.inject_latency { config := badLatencyCfg, pos := 0 } rs0 =
        .error "cannot sample empty range") := by
  refine ⟨fun cs cfg => rfl, fun cfg p rs hen hmax hminmax => ?_, by decide, by decide, rfl⟩
  unfold ChaosState.inject_latency genRangeInclusive
  rw [if_neg (by simp [hen, Nat.pos_iff_ne_zero.1 hmax]), if_neg (by dsimp only; omega)]
  exact ⟨_, _, rfl⟩

/-- C10 witness: with a well-formed nonzero latency range the draw succeeds. -/
theorem C10_witness :
    ∃ d cs', ChaosState.inject_latency { config := goodLatencyCfg, pos := 0 } rs0 =
      .ok (true, d, cs') :=
  C10_latency_range_safety.2.1 goodLatencyCfg 0 rs0 rfl (by decide) (by decide)

/-- C3 refutation: a request terminated by the first injected network failure
(failure rate 1) receives status 503 but commits no trace at all - the early
prologue of proxy_handler (lines 139-157) returns before the trace is created,
so the claimed one-trace-per-request invariant fails on this input. -/
theorem C3_no_trace_on_early_network_failure :
    ∃ r, proxy_handler stHit rs0 txh0 (some 200) reqPlain = .ok r ∧
      r.status = 503 ∧ r.kind = .earlyNetworkFailure ∧ r.state.traces.length = 0 :=
  ⟨_, rfl, rfl, rfl, rfl⟩

/-- C4 refutation: a request without X-Agent-ID is answered 400 with no ledger
mutation and no upstream call, but the early identity check of proxy_handler
(lines 128-134) returns before the trace is created, so no trace with status
400 is committed. -/
theorem C4_no_trace_on_missing_agent :
    ∃ r, proxy_handler st0 rs0 txh0 (some 200) reqNoAgent = .ok r ∧
      r.status = 400 ∧ r.kind = .earlyMissingAgent ∧ r.upstreamCalled = false ∧
      r.state.ledger = st0.ledger ∧ r.state.traces.length = 0 :=
  ⟨_, rfl, rfl, rfl, rfl, rfl, rfl⟩

/-- C8 refutation: with chaos enabled (mid rates, latency 1..1) a plain
identified request that never enters the payment gate consumes the PRNG in the
order latency, network-failure, latency, network-failure - two latency draws
and two network-failure rolls, not the single latency draw and single
network-failure roll the claim states. -/
theorem C8_double_chaos_draws :
    ∃ r, proxy_handler stMiss rs0 txh0 (some 200) reqPlain = .ok r ∧
      r.kind = .upstreamOk ∧
      r.chaosLog = [.latency, .networkFailure, .latency, .networkFailure] :=
  ⟨_, rfl, rfl, rfl⟩

/-- The forwarding phase leaves the recorded settlement invoice id unchanged. -/
theorem forwardPhase_paid (st : AppState) (req : HttpRequest) (trace : Trace)
    (lg : List ChaosOp) (paid : Option String) (upstream : Option Nat) :
    (forwardPhase st req trace lg paid upstream).paidInvoiceId = paid := by
  unfold forwardPhase
  cases h : resolve_upstream_url req with
  | error e => rfl
  | ok u => cases upstream <;> rfl

/-- C7 counterexample: the Authorization value "L402x" does not start with the
six-character "L402 " the claim requires for settlement, yet proxy_handler
enters the settlement branch (the code tests the four-character "L402") and
answers with a payment rejection instead of the claimed challenge. -/
theorem C7_counterexample :
    strStartsWith "L402x" "L402 " = false ∧
    ∃ r, proxy_handler st0 rs0 txh0 (some 200) reqBadAuth = .ok r ∧
      r.kind = .paymentRejected ∧ r.status = 402 ∧ r.paidInvoiceId = some "L402x" :=
  ⟨rfl, _, rfl, rfl, rfl, rfl⟩

/-- With chaos disabled, inject_latency draws nothing and keeps the state. -/
theorem inject_latency_off (cs : ChaosState) (rs : RandomSource)
    (h : cs.config.enabled = false) : cs.inject_latency rs = .ok (false, 0, cs) := by
  unfold ChaosState.inject_latency
  rw [if_pos (Or.inl h)]

/-- With chaos disabled, roll_network_failure returns none and keeps the state. -/
theorem roll_network_failure_off (cs : ChaosState) (rs : RandomSource)
    (h : cs.config.enabled = false) : cs.roll_network_failure rs = (none, cs) := by
  unfold ChaosState.roll_network_failure
  rw [if_pos h]

/-- With chaos disabled, roll_payment_failure returns false and keeps the state. -/
theorem roll_payment_failure_off (cs : ChaosState) (rs : RandomSource)
    (h : cs.config.enabled = false) : cs.roll_payment_failure rs = (false, cs) := by
  unfold ChaosState.roll_payment_failure
  rw [if_pos h]

/-- With chaos disabled, roll_rug_pull returns false and keeps the state. -/
theorem roll_rug_pull_off (cs : ChaosState) (rs : RandomSource)
    (h : cs.config.enabled = false) : cs.roll_rug_pull rs = (false, cs) := by
  unfold ChaosState.roll_rug_pull
  rw [if_pos h]

/-- C7 amended: with chaos disabled, for every identified gated request the
settlement branch is entered exactly when the Authorization header is present
and starts with the four-character "L402" (no trailing space required); any
other Authorization value yields the 402 challenge; and in settlement the
invoice id passed to pay_invoice is the header value with every occurrence of
"L402 " removed (str::replace), not merely the suffix after a stripped
"L402 ". -/
theorem C7_settlement_condition (st : AppState) (rs : RandomSource) (txh : String)
    (upstream : Option Nat) (req : HttpRequest) (aid : String)
    (hoff : st.chaos.config.enabled = false)
    (hagent : req.getHeader "x-agent-id" = some aid)
    (hgate : shouldGate req = true) :
    ∃ r, proxy_handler st rs txh upstream req = .ok r ∧
      (∀ token, req.getHeader "authorization" = some token →
        strStartsWith token "L402" = true →
        r.paidInvoiceId = some (strReplace token "L402 " "")) ∧
      (∀ token, req.getHeader "authorization" = some token →
        strStartsWith token "L402" = false →
        r.kind = .challenge ∧ r.paidInvoiceId = none) ∧
      (req.getHeader "authorization" = none →
        r.kind = .challenge ∧ r.paidInvoiceId = none) := by
  have hL := inject_latency_off st.chaos rs hoff
  have hN := roll_network_failure_off st.chaos rs hoff
  have hP := roll_payment_failure_off st.chaos rs hoff
  have hR := roll_rug_pull_off st.chaos rs hoff
  unfold proxy_handler
  simp only [hagent, hL, hN, hP, hR, hoff, hgate, if_true, if_false, ite_true, ite_false,
    Bool.false_eq_true, eq_self_iff_true]
  cases hauth : req.getHeader "authorization" with
  | none =>
    refine ⟨_, rfl, ?_, ?_, fun _ => ⟨rfl, rfl⟩⟩
    · intro token htok; exact Option.noConfusion htok
    · intro token htok; exact Option.noConfusion htok
  | some token =>
    by_cases hpre : strStartsWith token "L402" = true
    · simp only [hpre, if_true, ite_true]
      cases hpay : ((st.ledger.register_or_get aid).2.register_or_get aid).2.pay_invoice
          (strReplace token "L402 " "") aid st.network txh with
      | mk res led =>
        cases res with
        | error e =>
          refine ⟨_, rfl, ?_, ?_, ?_⟩
          · intro t ht _; cases ht; rfl
          · intro t ht hf; cases ht; rw [hpre] at hf; exact Bool.noConfusion hf
          · intro hn; exact Option.noConfusion hn
        | ok receipt =>
          refine ⟨_, rfl, ?_, ?_, ?_⟩
          · intro t ht _; cases ht
            exact forwardPhase_paid _ _ _ _ _ _
          · intro t ht hf; cases ht; rw [hpre] at hf; exact Bool.noConfusion hf
          · intro hn; exact Option.noConfusion hn
    · rw [Bool.not_eq_true] at hpre
      simp only [hpre, if_false, ite_false, Bool.false_eq_true]
      refine ⟨_, rfl, ?_, ?_, ?_⟩
      · intro t ht hf; cases ht; rw [hpre] at hf; exact Bool.noConfusion hf
      · intro t ht _; cases ht; exact ⟨rfl, rfl⟩
      · intro hn; exact Option.noConfusion hn

/-- C7 witness: a well-formed token "L402 i1" on a gated identified request
reaches pay_invoice with invoice id "i1". -/
theorem C7_witness :
    ∃ r, proxy_handler st0 rs0 txh0 (some 200) reqGoodAuth = .ok r ∧
      (∀ token, reqGoodAuth.getHeader "authorization" = some token →
        strStartsWith token "L402" = true →
        r.paidInvoiceId = some (strReplace token "L402 " "")) ∧
      (∀ token, reqGoodAuth.getHeader "authorization" = some token →
        strStartsWith token "L402" = false →
        r.kind = .challenge ∧ r.paidInvoiceId = none) ∧
      (reqGoodAuth.getHeader "authorization" = none →
        r.kind = .challenge ∧ r.paidInvoiceId = none) :=
  C7_settlement_condition st0 rs0 txh0 (some 200) reqGoodAuth "a1" rfl rfl rfl

/-- Each challenge-request run with chaos disabled appends exactly one trace
with a plain push_back and leaves the chaos state unchanged. -/
theorem stepChallenge_traces (st : AppState) (hoff : st.chaos.config.enabled = false) :
    (stepChallenge st).traces.length = st.traces.length + 1 ∧
    (stepChallenge st).chaos = st.chaos := by
  have hL := inject_latency_off st.chaos rs0 hoff
  have hN := roll_network_failure_off st.chaos rs0 hoff
  unfold stepChallenge proxy_handler
  simp only [show challengeReq.getHeader "x-agent-id" = some "a1" from rfl,
    show challengeReq.getHeader "authorization" = none from rfl,
    show shouldGate challengeReq = true from rfl,
    hL, hN, hoff, if_true, if_false, ite_true, ite_false, Bool.false_eq_true,
    eq_self_iff_true]
  simp [commitPush]

/-- After n challenge-request runs with chaos disabled the trace buffer has
grown by n and the chaos state is unchanged. -/
theorem iterChallenge_traces (n : Nat) : ∀ st : AppState,
    st.chaos.config.enabled = false →
    (iterChallenge n st).traces.length = st.traces.length + n ∧
    (iterChallenge n st).chaos = st.chaos := by
  induction n with
  | zero => exact fun st _ => ⟨rfl, rfl⟩
  | succ n ih =>
    intro st h
    obtain ⟨h1, h2⟩ := stepChallenge_traces st h
    have h3 : (stepChallenge st).chaos.config.enabled = false := by rw [h2]; exact h
    obtain ⟨ih1, ih2⟩ := ih (stepChallenge st) h3
    refine ⟨?_, ?_⟩
    · show (iterChallenge n (stepChallenge st)).traces.length = st.traces.length + (n + 1)
      rw [ih1, h1]; omega
    · show (iterChallenge n (stepChallenge st)).chaos = st.chaos
      rw [ih2, h2]

/-- C6 refutation: 1001 challenge requests (chaos disabled) commit 1001 traces
through the plain push_back of the challenge branch, which never evicts, so
the buffer exceeds the claimed capacity of 1000. -/
theorem C6_ring_buffer_overflow :
    (iterChallenge 1001 st0).traces.length = 1001 ∧
    1000 < (iterChallenge 1001 st0).traces.length := by
  have h := (iterChallenge_traces 1001 st0 rfl).1
  constructor
  · simpa using h
  · simp only [h]; omega

/-- C9 counterexample: a valid Alphanumeric sample of 64 letters z makes
generate_cronos_hash return "0x" followed by 64 z characters, which are
lowercase alphanumerics but not hexadecimal digits, refuting the claimed
64-lowercase-hex format. -/
theorem C9_counterexample :
    (List.replicate 64 'z').all (fun c => alphanumericChars.contains c) = true ∧
    ((generate_cronos_hash (List.replicate 64 'z')).data.drop 2).length = 64 ∧
    ((generate_cronos_hash (List.replicate 64 'z')).data.drop 2).all isLowerHexDigit
      = false := by
  refine ⟨by decide, by decide, by decide⟩

/-- Every Alphanumeric character lowercases to a lowercase alphanumeric. -/
theorem alphanumeric_toLower :
    alphanumericChars.all (fun c => isLowerAlphanumeric c.toLower) = true := by
  decide

/-- C9 amended: for every 64-character Alphanumeric sample, the generated
transaction hash is "0x" followed by exactly 64 lowercase alphanumeric
characters (0-9, a-z) - alphanumeric, not hexadecimal. -/
theorem C9_hash_format (sample : List Char) (hlen : sample.length = 64)
    (hal : sample.all (fun c => alphanumericChars.contains c) = true) :
    (generate_cronos_hash sample).data.take 2 = ['0', 'x'] ∧
    ((generate_cronos_hash sample).data.drop 2).length = 64 ∧
    ((generate_cronos_hash sample).data.drop 2).all isLowerAlphanumeric = true := by
  have hdata : (generate_cronos_hash sample).data = '0' :: 'x' :: sample.map Char.toLower := rfl
  rw [hdata]
  refine ⟨rfl, by simpa using hlen, ?_⟩
  rw [List.drop_succ_cons, List.drop_succ_cons, List.drop_zero, List.all_map]
  rw [List.all_eq_true] at hal ⊢
  intro c hc
  have h1 : alphanumericChars.contains c = true := hal c hc
  have h2 := List.all_eq_true.1 alphanumeric_toLower c (List.mem_of_elem_eq_true h1)
  exact h2

/-- C9 witness: the all-a sample meets the hypotheses and the format holds. -/
theorem C9_witness :
    (generate_cronos_hash (List.replicate 64 'a')).data.take 2 = ['0', 'x'] ∧
    ((generate_cronos_hash (List.replicate 64 'a')).data.drop 2).length = 64 ∧
    ((generate_cronos_hash (List.replicate 64 'a')).data.drop 2).all isLowerAlphanumeric
      = true :=
  C9_hash_format (List.replicate 64 'a') (by decide) (by decide)

end XDR
